import Mathlib

/-!
Shallow embedding of `robot_api` (src/robot_api/core.py): the polymorphic
goal-resolution layer of `Base.move`, the waypoint auto-registration and
error reporting of `Base.move_to_goal` / `Base.move_to_waypoint`, and the
retry-with-timeout pose query `Base.get_pose`.

Numbers are embedded as `ℚ` (Python floats compared exactly, never rounded
by the code under study). External collaborators absent from `src/`
(`robot_api.lib`'s `Storage`, `TuplePose` and `ActionlibComponent`,
`robot_api.excepthook`'s `Excepthook`, ROS `tf` and actionlib) are modelled
from the spec where a claim depends on them; each such definition carries a
doc comment starting with `Modelled from the spec:`.
-/

namespace RobotApi

/-- Modelled from the spec: the structured "message" form of a pose
(`geometry_msgs.msg.Pose`, external to the repository): position (x, y, z)
and orientation quaternion (x, y, z, w). -/
structure NativePose where
  px : ℚ
  py : ℚ
  pz : ℚ
  ox : ℚ
  oy : ℚ
  oz : ℚ
  ow : ℚ
deriving DecidableEq

/-- Canonical tuple form of a pose: `((x, y, z), (qx, qy, qz, qw))`, the
value stored in the Waypoint Store and compared for exact equality. -/
structure TuplePoseV where
  position : ℚ × ℚ × ℚ
  orientation : ℚ × ℚ × ℚ × ℚ
deriving DecidableEq

namespace TuplePose

/-- Modelled from the spec: `TuplePose.to_pose` (robot_api.lib, not under
`src/`) — convert the canonical tuple form to the native message form
(§4.1 `toNative`). -/
def to_pose (p : TuplePoseV) : NativePose :=
  { px := p.position.1, py := p.position.2.1, pz := p.position.2.2
  , ox := p.orientation.1, oy := p.orientation.2.1
  , oz := p.orientation.2.2.1, ow := p.orientation.2.2.2 }

/-- Modelled from the spec: `TuplePose.from_pose` (robot_api.lib, not under
`src/`) — convert the native message form to the canonical tuple form
(§4.1 `fromNative`). -/
def from_pose (p : NativePose) : TuplePoseV :=
  { position := (p.px, p.py, p.pz)
  , orientation := (p.ox, p.oy, p.oz, p.ow) }

end TuplePose

/-- A `move_base` navigation goal: `goal.target_pose.header.frame_id` and
`goal.target_pose.pose` (the timestamp is irrelevant to the claims). -/
structure MoveBaseGoalV where
  frame_id : String
  pose : NativePose
deriving DecidableEq

/-- Python runtime values as `Base.move` can receive them: `None`, floats,
ints, strings, lists, tuples, native `Pose` messages and `MoveBaseGoal`
objects. Floats and ints are distinct runtime types (`isinstance(1, float)`
is false in Python). -/
inductive PyVal where
  | none
  | pyFloat (q : ℚ)
  | pyInt (n : ℤ)
  | pyStr (s : String)
  | pyList (xs : List PyVal)
  | pyTuple (xs : List PyVal)
  | pyPose (p : NativePose)
  | pyGoal (g : MoveBaseGoalV)

/-- The generic type expressions `Base.move` passes to `_isinstance` /
`_get_at`: `float`, `MoveBaseGoal`, `Pose`,
`Union[Pose, Tuple[Sequence[float], Sequence[float]]]` and
`Sequence[float]`. `Union` and `Tuple` only ever occur with two arguments
there, so they are embedded at that arity. -/
inductive PyType where
  | float
  | int
  | str
  | pose
  | goal
  | union2 (a b : PyType)
  | tuple2 (a b : PyType)
  | seq (t : PyType)

/-- The elements of a value that is a `collections.abc.Sequence` (list,
tuple or str — a str's elements are its one-character strings), `none`
otherwise. -/
def seqElems : PyVal → Option (List PyVal)
  | .pyList xs => some xs
  | .pyTuple xs => some xs
  | .pyStr s => some (s.data.map fun c => .pyStr (String.mk [c]))
  | _ => Option.none

/-- `_isinstance(obj, type_or_generic)` from core.py (type argument first
so the recursion is structural on it): a `Union` matches when any
alternative does; a fixed-arity `Tuple[...]` requires a tuple of exactly
that length with componentwise matches; `Sequence[t]` requires a Sequence
all of whose elements match `t`; a plain type is Python `isinstance`. -/
def pyIsinstance : PyType → PyVal → Bool
  | .union2 a b => fun obj => pyIsinstance a obj || pyIsinstance b obj
  | .tuple2 a b => fun obj =>
    match obj with
    | .pyTuple [x, y] => pyIsinstance a x && pyIsinstance b y
    | _ => false
  | .seq t => fun obj =>
    match seqElems obj with
    | some xs => xs.all (pyIsinstance t)
    | Option.none => false
  | .float => fun obj => match obj with | .pyFloat _ => true | _ => false
  | .int => fun obj => match obj with | .pyInt _ => true | _ => false
  | .str => fun obj => match obj with | .pyStr _ => true | _ => false
  | .pose => fun obj => match obj with | .pyPose _ => true | _ => false
  | .goal => fun obj => match obj with | .pyGoal _ => true | _ => false

/-- `_isinstance` with the source's argument order. -/
def _isinstance (obj : PyVal) (t : PyType) : Bool := pyIsinstance t obj

/-- `_get_at(args, index, type_or_generic)` from core.py: the element of
`args` at `index` if it exists and its type matches, else `None`. -/
def _get_at (args : List PyVal) (index : ℕ) (t : PyType) : PyVal :=
  if h : index < args.length then
    if _isinstance args[index] t then args[index] else .none
  else .none

/-- `kwargs.get(key, default)`. -/
def kwget (kwargs : List (String × PyVal)) (key : String) (default : PyVal) : PyVal :=
  match kwargs.find? (fun kv => kv.1 == key) with
  | some kv => kv.2
  | Option.none => default

/-- `obj is None`. -/
def isNoneV : PyVal → Bool
  | .none => true
  | _ => false

/-- Python truthiness (`if not position:` …): `None`, zero numbers and
empty sequences are falsy; other objects are truthy. -/
def truthy : PyVal → Bool
  | .none => false
  | .pyFloat q => q != 0
  | .pyInt n => n != 0
  | .pyStr s => s != ""
  | .pyList xs => !xs.isEmpty
  | .pyTuple xs => !xs.isEmpty
  | .pyPose _ => true
  | .pyGoal _ => true

/-- The locals of `Base.move` after lines 187-197 of core.py: each is the
keyword argument if given, else the typed positional extraction, else
`None` (or the literal `0.0` default for z / roll / pitch). -/
structure ResolvedArgs where
  goal : PyVal
  pose : PyVal
  position : PyVal
  orient : PyVal
  x : PyVal
  y : PyVal
  z : PyVal
  roll : PyVal
  pitch : PyVal
  yaw : PyVal

/-- Lines 187-197 of `Base.move`. -/
def resolveArgs (args : List PyVal) (kwargs : List (String × PyVal)) : ResolvedArgs :=
  { goal := kwget kwargs "goal" (_get_at args 0 .goal)
  , pose := kwget kwargs "pose" (_get_at args 0 (.union2 .pose (.tuple2 (.seq .float) (.seq .float))))
  , position := kwget kwargs "position" (_get_at args 0 (.seq .float))
  , orient := kwget kwargs "orientation" (_get_at args 1 (.seq .float))
  , x := kwget kwargs "x" (_get_at args 0 .float)
  , y := kwget kwargs "y" (_get_at args 1 .float)
  , z := kwget kwargs "z" (if args.length > 3 then _get_at args 2 .float else .pyFloat 0)
  , roll := kwget kwargs "roll" (if args.length ≥ 4 then _get_at args 3 .float else .pyFloat 0)
  , pitch := kwget kwargs "pitch" (if args.length ≥ 5 then _get_at args 4 .float else .pyFloat 0)
  , yaw := kwget kwargs "yaw" (_get_at args (if args.length ≥ 6 then 5 else 2) .float) }

/-- Where `Base.move` dispatches: which `move_to_*` method is called with
which (unconverted) arguments, or the `ValueError` raised through
`Excepthook.expect` (the InvalidArguments error). -/
inductive MoveDispatch where
  | toGoal (goal : PyVal)
  | toPose (pose : PyVal) (fid : String)
  | toTuplePose (pose : PyVal) (fid : String)
  | toPosition (position orient : PyVal) (fid : String)
  | toCoordinates (x y z roll pitch yaw : PyVal) (fid : String)
  | invalid (msg : String)

/-- The message of the InvalidArguments error naming the four acceptable
shapes (core.py lines 203-204). -/
def fourShapesMsg : String :=
  "1. Goal, 2. pose, 3. position and orientation, or 4. x, y, and yaw must be specified."

/-- The message of the InvalidArguments error for a partial
position / orientation pair (core.py lines 208-209). -/
def bothPositionMsg : String :=
  "Both 'position' and 'orientation' parameters must be specified."

/-- Lines 198-213 of `Base.move`: the nested goal-resolution conditionals
over the extracted locals. -/
def moveResolveR (r : ResolvedArgs) (fid : String) : MoveDispatch :=
  if isNoneV r.goal then
    if isNoneV r.pose then
      if !truthy r.position || !truthy r.orient then
        if !truthy r.position && !truthy r.orient then
          if isNoneV r.x || isNoneV r.y || isNoneV r.yaw then
            .invalid fourShapesMsg
          else
            .toCoordinates r.x r.y r.z r.roll r.pitch r.yaw fid
        else
          .invalid bothPositionMsg
      else
        .toPosition r.position r.orient fid
    else
      if pyIsinstance .pose r.pose then .toPose r.pose fid else .toTuplePose r.pose fid
  else
    .toGoal r.goal

/-- `Base.move(*args, frame_id=fid, **kwargs)`: resolve the call shape. -/
def moveResolve (args : List PyVal) (kwargs : List (String × PyVal)) (fid : String) :
    MoveDispatch :=
  moveResolveR (resolveArgs args kwargs) fid

/-- `float(v)`-compatible numeric reading of a Python value, used to relate
a dispatched coordinate argument to the pose built from it. -/
def PyVal.toRat? : PyVal → Option ℚ
  | .pyFloat q => some q
  | .pyInt n => some (n : ℚ)
  | _ => Option.none

/-- The goal `Base.move_to_pose` builds: `target_pose.header.frame_id = fid`
and `target_pose.pose = p`. -/
def poseToGoal (p : NativePose) (fid : String) : MoveBaseGoalV :=
  { frame_id := fid, pose := p }

/-- The pose `Base.move_to_coordinates` builds:
`TuplePose.to_pose(((x, y, z), quaternion_from_euler(roll, pitch, yaw)))`,
with `tf.transformations.quaternion_from_euler` (external library) kept as
the parameter `qfe`. -/
def coordinatesPose (qfe : ℚ → ℚ → ℚ → ℚ × ℚ × ℚ × ℚ)
    (x y z roll pitch yaw : ℚ) : NativePose :=
  TuplePose.to_pose { position := (x, y, z), orientation := qfe roll pitch yaw }

/-- `Base.move_to_coordinates` composed with `Base.move_to_pose`'s goal
construction, applied to a `toCoordinates` dispatch of `Base.move`:
the goal handed to `move_to_goal`, if the dispatched coordinates are
numeric. -/
def runCoordinates (qfe : ℚ → ℚ → ℚ → ℚ × ℚ × ℚ × ℚ) :
    MoveDispatch → Option MoveBaseGoalV
  | .toCoordinates xv yv zv rv pv wv fid =>
    match xv.toRat?, yv.toRat?, zv.toRat?, rv.toRat?, pv.toRat?, wv.toRat? with
    | some x, some y, some z, some r, some p, some w =>
      some (poseToGoal (coordinatesPose qfe x y z r p w) fid)
    | _, _, _, _, _, _ => Option.none
  | _ => Option.none

/-- Keys of the Waypoint Store mapping (insertion-ordered, names unique). -/
def wsKeys (ws : List (String × TuplePoseV)) : List String := ws.map Prod.fst

/-- Values of the Waypoint Store mapping. -/
def wsValues (ws : List (String × TuplePoseV)) : List TuplePoseV := ws.map Prod.snd

/-- Python dict assignment `waypoints[name] = pose`: overwrite in place if
the key exists, append otherwise. -/
def dictSet (ws : List (String × TuplePoseV)) (k : String) (v : TuplePoseV) :
    List (String × TuplePoseV) :=
  if k ∈ wsKeys ws then ws.map (fun kv => if kv.1 = k then (k, v) else kv)
  else ws ++ [(k, v)]

/-- Modelled from the spec: `Storage._add_generic_waypoint` (robot_api.lib,
not under `src/`) — §4.2 `addGeneric` inserts the pose under a generated
name; the naming scheme is underspecified (§9), so the generator is the
parameter `genName`, and the spec's guarantee that the generated name "is
not already in use" becomes a hypothesis of the theorems that need it. -/
def add_generic_waypoint (genName : List (String × TuplePoseV) → String)
    (ws : List (String × TuplePoseV)) (pose : TuplePoseV) :
    List (String × TuplePoseV) :=
  dictSet ws (genName ws) pose

/-- A rendering of a rational, for the diagnostic waypoint listing. -/
def ratStr (q : ℚ) : String := toString q.num ++ "/" ++ toString q.den

/-- A rendering of a stored pose, for the diagnostic waypoint listing. -/
def poseStr (p : TuplePoseV) : String :=
  "((" ++ ratStr p.position.1 ++ ", " ++ ratStr p.position.2.1 ++ ", "
    ++ ratStr p.position.2.2 ++ "), (" ++ ratStr p.orientation.1 ++ ", "
    ++ ratStr p.orientation.2.1 ++ ", " ++ ratStr p.orientation.2.2.1 ++ ", "
    ++ ratStr p.orientation.2.2.2 ++ "))"

/-- Modelled from the spec: `Storage._waypoints_to_str` (robot_api.lib, not
under `src/`) — §4.2 `toDisplayString`, a deterministic human-readable
listing of the full mapping in stable order, omitting and duplicating no
entry. -/
def waypointsToStr (ws : List (String × TuplePoseV)) : String :=
  String.intercalate "\n" (ws.map fun kv => kv.1 ++ ": " ++ poseStr kv.2)

/-- One movement call's externally visible outcome: the Waypoint Store
after the call, the `rospy.logerr` diagnostics it emitted, and the goal
handed to the `move_base` action client (`none` when nothing was sent and
the Python method returned `None`). -/
structure MoveStep where
  waypoints : List (String × TuplePoseV)
  errors : List String
  sent : Option MoveBaseGoalV
deriving DecidableEq

/-- The NavigationUnavailable diagnostic of `Base.move_to_goal`
(core.py line 92). -/
def moveBaseMissingMsg : String := "Did you launch the move_base node?"

/-- `Base.move_to_goal(goal, ...)`: `connected` is the outcome of the lazy
`self._connect(Base.MOVE_BASE_TOPIC_NAME)` (`ActionlibComponent` lives in
robot_api.lib, not under `src/`; modelled from the spec as a boolean
"the navigation actor connection can be established"). If it fails, log
the error and return `None`. Otherwise compare `TuplePose.from_pose` of
the goal's pose for exact equality against all stored waypoint values,
auto-register it under a generated name if new, and send the goal (the
`send_goal_and_wait` / `send_goal` split and the debug logging do not
affect the store, the error diagnostics or which goal is sent, and are not
modelled). -/
def move_to_goal (genName : List (String × TuplePoseV) → String) (connected : Bool)
    (ws : List (String × TuplePoseV)) (g : MoveBaseGoalV) : MoveStep :=
  if !connected then
    { waypoints := ws, errors := [moveBaseMissingMsg], sent := Option.none }
  else
    let pose := TuplePose.from_pose g.pose
    { waypoints := if pose ∉ wsValues ws then add_generic_waypoint genName ws pose else ws
    , errors := []
    , sent := some g }

/-- `Base.move_to_pose(pose, frame_id, ...)`: wrap the pose in a goal for
`frame_id` and delegate to `move_to_goal`. -/
def move_to_pose (genName : List (String × TuplePoseV) → String) (connected : Bool)
    (ws : List (String × TuplePoseV)) (p : NativePose) (fid : String) : MoveStep :=
  move_to_goal genName connected ws (poseToGoal p fid)

/-- The WaypointNotFound diagnostic when the store is non-empty
(core.py lines 147-148). -/
def waypointMissingMsg (name : String) (ws : List (String × TuplePoseV)) : String :=
  "Waypoint '" ++ name ++ "' does not exist. Available waypoints:\n" ++ waypointsToStr ws

/-- The WaypointNotFound diagnostic when the store is empty
(core.py line 150). -/
def noWaypointsMsg (name : String) : String :=
  "No waypoints defined yet, so cannot use waypoint '" ++ name ++ "'."

/-- `Base.move_to_waypoint(name, frame_id, ...)`: if `name` is not a key of
the store, log the WaypointNotFound diagnostic (with the full listing when
the store is non-empty) and return `None`; else move to the stored pose. -/
def move_to_waypoint (genName : List (String × TuplePoseV) → String) (connected : Bool)
    (ws : List (String × TuplePoseV)) (name : String) (fid : String) : MoveStep :=
  match ws.find? (fun kv => kv.1 == name) with
  | Option.none =>
    { waypoints := ws
    , errors := [if !ws.isEmpty then waypointMissingMsg name ws else noWaypointsMsg name]
    , sent := Option.none }
  | some kv => move_to_pose genName connected ws (TuplePose.to_pose kv.2) fid

/-- The transient failures of the pose service:
`tf.LookupException` and `tf.ExtrapolationException`. -/
inductive TFError where
  | lookup
  | extrapolation
deriving DecidableEq

/-- One attempt of `self._tf_listener.lookupTransform(...)`: a pose, or a
transient failure. -/
inductive LookupOutcome where
  | ok (pose : TuplePoseV)
  | err (e : TFError)
deriving DecidableEq

/-- The outcome of `Base.get_pose`, with the elapsed whole seconds since
the first failed attempt: a pose; the expected error raised through
`Excepthook.expect` (modelled from the spec: `Excepthook` lives in
robot_api.excepthook, not under `src/`; §7 calls this surfaced, wrapped
error PoseUnavailable, and it carries the original first-attempt cause);
or an exception that escapes `get_pose` unwrapped. -/
inductive GetPoseResult where
  | ok (pose : TuplePoseV) (elapsed : ℕ)
  | poseUnavailable (cause : TFError) (elapsed : ℕ)
  | rawError (e : TFError) (elapsed : ℕ)
deriving DecidableEq

/-- The retry loop of `Base.get_pose` (core.py lines 57-65), in discrete
seconds: while the elapsed time since the first failure is below `timeout`,
sleep one second and try `lookupTransform` again (the attempt at `elapsed +
1` seconds); a success returns immediately; `except tf.LookupException:
pass` retries — only that class is caught, so an `ExtrapolationException`
escapes raw; when the condition fails, the original error `orig` is raised
through `Excepthook.expect`. `service t` is the outcome of the attempt `t`
seconds after the first one; `fuel` bounds the recursion and is chosen in
`get_pose` so that it outlasts the while condition. -/
def retry_lookup (service : ℕ → LookupOutcome) (timeout : ℚ) (orig : TFError) :
    ℕ → ℕ → GetPoseResult
  | 0, elapsed => .poseUnavailable orig elapsed
  | fuel + 1, elapsed =>
    if (elapsed : ℚ) < timeout then
      match service (elapsed + 1) with
      | .ok p => .ok p (elapsed + 1)
      | .err .lookup => retry_lookup service timeout orig fuel (elapsed + 1)
      | .err .extrapolation => .rawError .extrapolation (elapsed + 1)
    else .poseUnavailable orig elapsed

/-- `Base.get_pose(reference_frame, robot_frame, timeout)` (core.py lines
49-69): one initial attempt; on transient failure (either kind), if
`timeout` is truthy (non-zero float) enter the retry loop, else raise the
wrapped error immediately. -/
def get_pose (service : ℕ → LookupOutcome) (timeout : ℚ) : GetPoseResult :=
  match service 0 with
  | .ok p => .ok p 0
  | .err e =>
    if timeout ≠ 0 then retry_lookup service timeout e (⌈timeout⌉₊ + 1) 0
    else .poseUnavailable e 0

theorem TuplePose.from_pose_to_pose (p : TuplePoseV) :
    TuplePose.from_pose (TuplePose.to_pose p) = p := rfl

theorem TuplePose.to_pose_from_pose (p : NativePose) :
    TuplePose.to_pose (TuplePose.from_pose p) = p := rfl

theorem dictSet_of_fresh (ws : List (String × TuplePoseV)) (k : String) (v : TuplePoseV)
    (h : k ∉ wsKeys ws) : dictSet ws k v = ws ++ [(k, v)] := by
  simp only [dictSet, if_neg h]

theorem find?_eq_none_of_not_mem_keys (ws : List (String × TuplePoseV)) (name : String)
    (h : name ∉ wsKeys ws) : ws.find? (fun kv => kv.1 == name) = Option.none := by
  rw [List.find?_eq_none]
  intro kv hkv
  simp only [beq_iff_eq]
  intro heq
  exact h (List.mem_map.mpr ⟨kv, hkv, heq⟩)

theorem retry_lookup_exhaust (service : ℕ → LookupOutcome) (timeout : ℚ) (orig : TFError)
    (hfail : ∀ t, 0 < t → service t = .err .lookup) :
    ∀ fuel elapsed, ⌈timeout⌉₊ < elapsed + fuel → elapsed ≤ ⌈timeout⌉₊ →
      retry_lookup service timeout orig fuel elapsed = .poseUnavailable orig ⌈timeout⌉₊ := by
  intro fuel
  induction fuel with
  | zero => intro elapsed h1 h2; omega
  | succ n ih =>
    intro elapsed h1 h2
    by_cases hc : (elapsed : ℚ) < timeout
    · have he : elapsed < ⌈timeout⌉₊ := Nat.lt_ceil.mpr hc
      rw [retry_lookup, if_pos hc, hfail (elapsed + 1) (by omega)]
      exact ih (elapsed + 1) (by omega) (by omega)
    · have h3 : ⌈timeout⌉₊ ≤ elapsed := by
        by_contra hlt
        exact hc (Nat.lt_ceil.mp (by omega))
      rw [retry_lookup, if_neg hc, Nat.le_antisymm h2 h3]

theorem retry_lookup_success (service : ℕ → LookupOutcome) (timeout : ℚ) (orig : TFError)
    (p : TuplePoseV) (k : ℕ) (hk : service k = .ok p)
    (hfail : ∀ t, 0 < t → t < k → service t = .err .lookup) :
    ∀ fuel elapsed, elapsed < k → k ≤ elapsed + fuel → k ≤ ⌈timeout⌉₊ →
      retry_lookup service timeout orig fuel elapsed = .ok p k := by
  intro fuel
  induction fuel with
  | zero => intro elapsed h1 h2 h3; omega
  | succ n ih =>
    intro elapsed h1 h2 h3
    have hc : (elapsed : ℚ) < timeout := Nat.lt_ceil.mp (by omega)
    rw [retry_lookup, if_pos hc]
    by_cases hek : elapsed + 1 = k
    · rw [hek, hk]
    · rw [hfail (elapsed + 1) (by omega) (by omega)]
      exact ih (elapsed + 1) (by omega) (by omega) h3

theorem retry_lookup_extrap (service : ℕ → LookupOutcome) (timeout : ℚ) (orig : TFError)
    (k : ℕ) (hk : service k = .err .extrapolation)
    (hfail : ∀ t, 0 < t → t < k → service t = .err .lookup) :
    ∀ fuel elapsed, elapsed < k → k ≤ elapsed + fuel → k ≤ ⌈timeout⌉₊ →
      retry_lookup service timeout orig fuel elapsed = .rawError .extrapolation k := by
  intro fuel
  induction fuel with
  | zero => intro elapsed h1 h2 h3; omega
  | succ n ih =>
    intro elapsed h1 h2 h3
    have hc : (elapsed : ℚ) < timeout := Nat.lt_ceil.mp (by omega)
    rw [retry_lookup, if_pos hc]
    by_cases hek : elapsed + 1 = k
    · rw [hek, hk]
    · rw [hfail (elapsed + 1) (by omega) (by omega)]
      exact ih (elapsed + 1) (by omega) (by omega) h3

/-- C1 (amended): `Base.move` resolves by runtime shape inspection with
fixed precedence — a goal wins over a pose (native or tuple form), which
wins over a truthy position + orientation pair, which wins over numeric
x / y / yaw coordinates; the first shape whose required fields are all
present wins, EXCEPT that when exactly one of position / orientation is
truthy (and no goal or pose is given), the call raises InvalidArguments
even when x, y and yaw are all present. -/
theorem move_precedence_cascade (args : List PyVal) (kwargs : List (String × PyVal))
    (fid : String) (r : ResolvedArgs) (hr : r = resolveArgs args kwargs) :
    (isNoneV r.goal = false → moveResolve args kwargs fid = .toGoal r.goal) ∧
    (isNoneV r.goal = true → isNoneV r.pose = false →
      moveResolve args kwargs fid =
        (if pyIsinstance .pose r.pose then .toPose r.pose fid else .toTuplePose r.pose fid)) ∧
    (isNoneV r.goal = true → isNoneV r.pose = true →
      truthy r.position = true → truthy r.orient = true →
      moveResolve args kwargs fid = .toPosition r.position r.orient fid) ∧
    (isNoneV r.goal = true → isNoneV r.pose = true →
      truthy r.position = false → truthy r.orient = false →
      isNoneV r.x = false → isNoneV r.y = false → isNoneV r.yaw = false →
      moveResolve args kwargs fid = .toCoordinates r.x r.y r.z r.roll r.pitch r.yaw fid) ∧
    (isNoneV r.goal = true → isNoneV r.pose = true →
      truthy r.position = false → truthy r.orient = false →
      (isNoneV r.x = true ∨ isNoneV r.y = true ∨ isNoneV r.yaw = true) →
      moveResolve args kwargs fid = .invalid fourShapesMsg) ∧
    (isNoneV r.goal = true → isNoneV r.pose = true →
      truthy r.position = true → truthy r.orient = false →
      moveResolve args kwargs fid = .invalid bothPositionMsg) ∧
    (isNoneV r.goal = true → isNoneV r.pose = true →
      truthy r.position = false → truthy r.orient = true →
      moveResolve args kwargs fid = .invalid bothPositionMsg) := by
  subst hr
  refine ⟨fun h1 => ?_, fun h1 h2 => ?_, fun h1 h2 h3 h4 => ?_,
    fun h1 h2 h3 h4 h5 h6 h7 => ?_, fun h1 h2 h3 h4 h5 => ?_,
    fun h1 h2 h3 h4 => ?_, fun h1 h2 h3 h4 => ?_⟩
  · simp [moveResolve, moveResolveR, h1]
  · simp [moveResolve, moveResolveR, h1, h2]
  · simp [moveResolve, moveResolveR, h1, h2, h3, h4]
  · simp [moveResolve, moveResolveR, h1, h2, h3, h4, h5, h6, h7]
  · rcases h5 with h5 | h5 | h5 <;> simp [moveResolve, moveResolveR, h1, h2, h3, h4, h5]
  · simp [moveResolve, moveResolveR, h1, h2, h3, h4]
  · simp [moveResolve, moveResolveR, h1, h2, h3, h4]

/-- C1 (counterexample): calling `move(orientation=[0.,0.,0.,1.], x=1.0,
y=2.0, yaw=0.0)` leaves the x / y / yaw shape's required fields all
present (and no goal or pose), yet the code raises the "Both 'position'
and 'orientation'" InvalidArguments error instead of dispatching the
coordinate shape — so "the first shape whose required fields are all
present is the one dispatched" is false as stated. -/
theorem move_precedence_counterexample :
    moveResolve []
        [("orientation", .pyList [.pyFloat 0, .pyFloat 0, .pyFloat 0, .pyFloat 1]),
         ("x", .pyFloat 1), ("y", .pyFloat 2), ("yaw", .pyFloat 0)] "map"
      = .invalid bothPositionMsg ∧
    isNoneV (resolveArgs []
        [("orientation", .pyList [.pyFloat 0, .pyFloat 0, .pyFloat 0, .pyFloat 1]),
         ("x", .pyFloat 1), ("y", .pyFloat 2), ("yaw", .pyFloat 0)]).goal = true ∧
    isNoneV (resolveArgs []
        [("orientation", .pyList [.pyFloat 0, .pyFloat 0, .pyFloat 0, .pyFloat 1]),
         ("x", .pyFloat 1), ("y", .pyFloat 2), ("yaw", .pyFloat 0)]).pose = true ∧
    isNoneV (resolveArgs []
        [("orientation", .pyList [.pyFloat 0, .pyFloat 0, .pyFloat 0, .pyFloat 1]),
         ("x", .pyFloat 1), ("y", .pyFloat 2), ("yaw", .pyFloat 0)]).x = false ∧
    isNoneV (resolveArgs []
        [("orientation", .pyList [.pyFloat 0, .pyFloat 0, .pyFloat 0, .pyFloat 1]),
         ("x", .pyFloat 1), ("y", .pyFloat 2), ("yaw", .pyFloat 0)]).y = false ∧
    isNoneV (resolveArgs []
        [("orientation", .pyList [.pyFloat 0, .pyFloat 0, .pyFloat 0, .pyFloat 1]),
         ("x", .pyFloat 1), ("y", .pyFloat 2), ("yaw", .pyFloat 0)]).yaw = false ∧
    moveResolve []
        [("orientation", .pyList [.pyFloat 0, .pyFloat 0, .pyFloat 0, .pyFloat 1]),
         ("x", .pyFloat 1), ("y", .pyFloat 2), ("yaw", .pyFloat 0)] "map"
      ≠ .toCoordinates (.pyFloat 1) (.pyFloat 2) (.pyFloat 0) (.pyFloat 0) (.pyFloat 0)
          (.pyFloat 0) "map" :=
  ⟨rfl, rfl, rfl, rfl, rfl, rfl, fun h => nomatch h⟩

/-- C1 (witness): with a goal as the single positional argument, the first
conjunct of the cascade dispatches it to `move_to_goal`. -/
theorem move_precedence_cascade_witness :
    moveResolve [.pyGoal { frame_id := "map", pose := ⟨0, 0, 0, 0, 0, 0, 1⟩ }] [] "map"
      = .toGoal (.pyGoal { frame_id := "map", pose := ⟨0, 0, 0, 0, 0, 0, 1⟩ }) :=
  (move_precedence_cascade [.pyGoal { frame_id := "map", pose := ⟨0, 0, 0, 0, 0, 0, 1⟩ }]
    [] "map" _ rfl).1 rfl

/-- C2 (confirmed): if no goal and no pose is given and exactly one of
`position` / `orientation` is supplied (Python truthiness: `None` and
empty sequences count as absent, matching the code's `not position`
checks), `Base.move` raises the "Both 'position' and 'orientation'"
InvalidArguments error and dispatches nothing. -/
theorem move_partial_pair_invalid (args : List PyVal) (kwargs : List (String × PyVal))
    (fid : String)
    (hg : isNoneV (resolveArgs args kwargs).goal = true)
    (hp : isNoneV (resolveArgs args kwargs).pose = true)
    (hxor : truthy (resolveArgs args kwargs).position ≠ truthy (resolveArgs args kwargs).orient) :
    moveResolve args kwargs fid = .invalid bothPositionMsg := by
  cases hpos : truthy (resolveArgs args kwargs).position <;>
    cases hori : truthy (resolveArgs args kwargs).orient
  · exact absurd (hpos.trans hori.symm) hxor
  · simp [moveResolve, moveResolveR, hg, hp, hpos, hori]
  · simp [moveResolve, moveResolveR, hg, hp, hpos, hori]
  · exact absurd (hpos.trans hori.symm) hxor

/-- C2 (witness): a call with only `orientation` set (no position, pose,
goal or x / y / yaw) fails with the InvalidArguments error. -/
theorem move_partial_pair_invalid_witness :
    moveResolve [] [("orientation", .pyList [.pyFloat 0, .pyFloat 0, .pyFloat 0, .pyFloat 1])]
        "map" = .invalid bothPositionMsg :=
  move_partial_pair_invalid []
    [("orientation", .pyList [.pyFloat 0, .pyFloat 0, .pyFloat 0, .pyFloat 1])] "map"
    rfl rfl (by decide)

/-- C9 (confirmed): `move(x, y, yaw)` with three positional floats resolves
to the coordinate shape with z = roll = pitch = 0.0 exactly, and the
dispatched goal's pose has position (x, y, 0) and orientation
`quaternion_from_euler(0, 0, yaw)`. -/
theorem move_xyyaw_defaults (x y yaw : ℚ) (qfe : ℚ → ℚ → ℚ → ℚ × ℚ × ℚ × ℚ)
    (fid : String) :
    moveResolve [.pyFloat x, .pyFloat y, .pyFloat yaw] [] fid
      = .toCoordinates (.pyFloat x) (.pyFloat y) (.pyFloat 0) (.pyFloat 0) (.pyFloat 0)
          (.pyFloat yaw) fid ∧
    runCoordinates qfe (moveResolve [.pyFloat x, .pyFloat y, .pyFloat yaw] [] fid)
      = some { frame_id := fid
             , pose := TuplePose.to_pose { position := (x, y, 0), orientation := qfe 0 0 yaw } } :=
  ⟨rfl, rfl⟩

/-- C10 (confirmed): `move(1, 2, 0)` with three positional ints fails the
exact-float runtime type check (`isinstance(1, float)` is false) and
raises the four-shapes InvalidArguments error, while the same integers
passed as keyword arguments x=, y=, yaw= bypass `_get_at`'s type check
and are dispatched to the coordinate shape. -/
theorem move_int_positional_rejected_keyword_accepted :
    moveResolve [.pyInt 1, .pyInt 2, .pyInt 0] [] "map" = .invalid fourShapesMsg ∧
    _isinstance (.pyInt 1) .float = false ∧
    moveResolve [] [("x", .pyInt 1), ("y", .pyInt 2), ("yaw", .pyInt 0)] "map"
      = .toCoordinates (.pyInt 1) (.pyInt 2) (.pyFloat 0) (.pyFloat 0) (.pyFloat 0)
          (.pyInt 0) "map" :=
  ⟨rfl, rfl, rfl⟩

/-- C3 (confirmed): with an established navigation connection, if the
resolved pose is not value-equal to any stored waypoint value, exactly one
new entry with that value is added under the generated name before the
goal is sent; if it is already present the store is unchanged; dispatching
the same pose a second time therefore adds no duplicate entry. The spec's
guarantee that the generated name is unused (§4.2) is the hypothesis. -/
theorem move_to_goal_auto_registration (genName : List (String × TuplePoseV) → String)
    (ws : List (String × TuplePoseV)) (g : MoveBaseGoalV)
    (hfresh : genName ws ∉ wsKeys ws) :
    (TuplePose.from_pose g.pose ∉ wsValues ws →
      move_to_goal genName true ws g =
        { waypoints := ws ++ [(genName ws, TuplePose.from_pose g.pose)]
        , errors := [], sent := some g }) ∧
    (TuplePose.from_pose g.pose ∈ wsValues ws →
      move_to_goal genName true ws g = { waypoints := ws, errors := [], sent := some g }) ∧
    (∀ genName2 : List (String × TuplePoseV) → String,
      (move_to_goal genName2 true (move_to_goal genName true ws g).waypoints g).waypoints
        = (move_to_goal genName true ws g).waypoints) := by
  by_cases hmem : TuplePose.from_pose g.pose ∈ wsValues ws
  · refine ⟨fun hn => absurd hmem hn, fun _ => ?_, fun genName2 => ?_⟩
    · simp [move_to_goal, hmem]
    · simp [move_to_goal, hmem]
  · have h1 : move_to_goal genName true ws g =
        { waypoints := ws ++ [(genName ws, TuplePose.from_pose g.pose)]
        , errors := [], sent := some g } := by
      simp [move_to_goal, hmem, add_generic_waypoint, dictSet_of_fresh _ _ _ hfresh]
    refine ⟨fun _ => h1, fun hm => absurd hm hmem, fun genName2 => ?_⟩
    rw [h1]
    have h2 : TuplePose.from_pose g.pose
        ∈ wsValues (ws ++ [(genName ws, TuplePose.from_pose g.pose)]) := by
      simp [wsValues]
    simp [move_to_goal, h2]

/-- C3 (witness): sending a goal for pose ((1,2,0),(0,0,0,1)) against an
empty store adds exactly the one generated entry with that value and sends
the goal. -/
theorem move_to_goal_auto_registration_witness :
    move_to_goal (fun _ => "waypoint1") true []
        { frame_id := "map", pose := ⟨1, 2, 0, 0, 0, 0, 1⟩ }
      = { waypoints := [("waypoint1", { position := (1, 2, 0), orientation := (0, 0, 0, 1) })]
        , errors := []
        , sent := some { frame_id := "map", pose := ⟨1, 2, 0, 0, 0, 0, 1⟩ } } := by
  have h := (move_to_goal_auto_registration (fun _ => "waypoint1") []
      { frame_id := "map", pose := ⟨1, 2, 0, 0, 0, 0, 1⟩ } (by simp [wsKeys])).1
      (by simp [wsValues])
  simpa using h

/-- C6 (confirmed): `move_to_waypoint(name)` with a name not in the store
logs the WaypointNotFound diagnostic — the full waypoint listing when the
store is non-empty, the "no waypoints defined" message when it is empty —
and returns `None` without sending anything to the navigation actor
(the function returns normally; no exception reaches the caller). -/
theorem move_to_waypoint_not_found (genName : List (String × TuplePoseV) → String)
    (connected : Bool) (ws : List (String × TuplePoseV)) (name fid : String)
    (h : name ∉ wsKeys ws) :
    move_to_waypoint genName connected ws name fid =
      { waypoints := ws
      , errors := [if !ws.isEmpty then waypointMissingMsg name ws else noWaypointsMsg name]
      , sent := Option.none } := by
  unfold move_to_waypoint
  rw [find?_eq_none_of_not_mem_keys ws name h]

/-- C6 (witness): `move_to_waypoint("nonexistent")` against an empty store
reports the "no waypoints defined" message and sends nothing. -/
theorem move_to_waypoint_not_found_witness :
    move_to_waypoint (fun _ => "w") true [] "nonexistent" "map"
      = { waypoints := [], errors := [noWaypointsMsg "nonexistent"], sent := Option.none } := by
  have h := move_to_waypoint_not_found (fun _ => "w") true [] "nonexistent" "map"
    (by simp [wsKeys])
  simpa using h

/-- C7 (confirmed): when the lazily-established `move_base` connection
cannot be made, the movement call logs the NavigationUnavailable
diagnostic ("Did you launch the move_base node?") and returns `None`
(nothing sent, no exception) — for `move_to_goal` and for the
`move_to_pose` path every other shape funnels through. -/
theorem move_navigation_unavailable (genName : List (String × TuplePoseV) → String)
    (ws : List (String × TuplePoseV)) (g : MoveBaseGoalV) (p : NativePose) (fid : String) :
    move_to_goal genName false ws g
      = { waypoints := ws, errors := [moveBaseMissingMsg], sent := Option.none } ∧
    move_to_pose genName false ws p fid
      = { waypoints := ws, errors := [moveBaseMissingMsg], sent := Option.none } :=
  ⟨rfl, rfl⟩

/-- C8 (confirmed): a movement call that ends in the
navigation-backend-missing condition or the unknown-waypoint condition
leaves the Waypoint Store exactly as it was (no auto-registration) and
sends no goal to the navigation actor. -/
theorem move_failure_no_state_effect (genName : List (String × TuplePoseV) → String)
    (ws : List (String × TuplePoseV)) (g : MoveBaseGoalV) :
    ((move_to_goal genName false ws g).waypoints = ws ∧
      (move_to_goal genName false ws g).sent = Option.none) ∧
    (∀ (connected : Bool) (name fid : String), name ∉ wsKeys ws →
      (move_to_waypoint genName connected ws name fid).waypoints = ws ∧
      (move_to_waypoint genName connected ws name fid).sent = Option.none) := by
  refine ⟨⟨rfl, rfl⟩, fun connected name fid h => ?_⟩
  unfold move_to_waypoint
  rw [find?_eq_none_of_not_mem_keys ws name h]
  exact ⟨rfl, rfl⟩

/-- C8 (witness): an unknown-waypoint call against a one-entry store
leaves the store unchanged and sends nothing. -/
theorem move_failure_no_state_effect_witness :
    (move_to_waypoint (fun _ => "w") true
        [("home", { position := (0, 0, 0), orientation := (0, 0, 0, 1) })]
        "away" "map").waypoints
      = [("home", { position := (0, 0, 0), orientation := (0, 0, 0, 1) })] ∧
    (move_to_waypoint (fun _ => "w") true
        [("home", { position := (0, 0, 0), orientation := (0, 0, 0, 1) })]
        "away" "map").sent = Option.none :=
  (move_failure_no_state_effect (fun _ => "w")
      [("home", { position := (0, 0, 0), orientation := (0, 0, 0, 1) })]
      { frame_id := "map", pose := ⟨0, 0, 0, 0, 0, 0, 1⟩ }).2
    true "away" "map" (by decide)

/-- C4 (amended): for `get_pose` against a service failing every attempt
with a transient LOOKUP error and `timeout > 0`, the initial attempt is
followed by retries once per (whole) second and exhaustion yields
PoseUnavailable after `⌈timeout⌉` seconds (within one second of `timeout`
— in particular `timeout = 2` fails after 2 seconds, not 3); with
`timeout = 0` the first failure of either kind is surfaced immediately
without retrying; a first successful retry inside the window is returned
immediately. (As stated over all transiently failing services the claim
is false: an extrapolation error on a retry attempt escapes early —
see the counterexample.) -/
theorem get_pose_timeout_semantics :
    (∀ (service : ℕ → LookupOutcome) (timeout : ℚ), 0 < timeout →
      (∀ t, service t = .err .lookup) →
      get_pose service timeout = .poseUnavailable .lookup ⌈timeout⌉₊ ∧
      timeout ≤ (⌈timeout⌉₊ : ℚ) ∧ (⌈timeout⌉₊ : ℚ) < timeout + 1) ∧
    (∀ (service : ℕ → LookupOutcome) (e : TFError), service 0 = .err e →
      get_pose service 0 = .poseUnavailable e 0) ∧
    (∀ (service : ℕ → LookupOutcome) (timeout : ℚ) (p : TuplePoseV) (k : ℕ),
      0 < k → k ≤ ⌈timeout⌉₊ → (∀ t, t < k → service t = .err .lookup) →
      service k = .ok p → get_pose service timeout = .ok p k) := by
  refine ⟨fun service timeout hpos hfail => ?_, fun service e h0 => ?_,
    fun service timeout p k hk hkc hfail hok => ?_⟩
  · have hne : timeout ≠ 0 := ne_of_gt hpos
    refine ⟨?_, Nat.le_ceil timeout, Nat.ceil_lt_add_one (le_of_lt hpos)⟩
    simp only [get_pose, hfail 0]
    rw [if_pos hne]
    exact retry_lookup_exhaust service timeout .lookup (fun t _ => hfail t)
      (⌈timeout⌉₊ + 1) 0 (by omega) (by omega)
  · simp [get_pose, h0]
  · have hpos : 0 < timeout := Nat.ceil_pos.mp (lt_of_lt_of_le hk hkc)
    have hne : timeout ≠ 0 := ne_of_gt hpos
    simp only [get_pose, hfail 0 hk]
    rw [if_pos hne]
    exact retry_lookup_success service timeout .lookup p k hok (fun t _ h2 => hfail t h2)
      (⌈timeout⌉₊ + 1) 0 hk (by omega) hkc

/-- C4 (counterexample): a service failing EVERY attempt with the
transient extrapolation error, queried with `timeout = 2`, does not end
with PoseUnavailable after about 2 seconds: the first retry attempt's
ExtrapolationException escapes `get_pose` raw after 1 second, because the
retry loop's `except` clause catches only `tf.LookupException`. -/
theorem get_pose_extrapolation_escape_counterexample :
    get_pose (fun _ => .err .extrapolation) 2 = .rawError .extrapolation 1 ∧
    get_pose (fun _ => .err .extrapolation) 2 ≠ .poseUnavailable .extrapolation 2 :=
  ⟨rfl, by decide⟩

/-- C4 (witness): an all-lookup-failing service with `timeout = 2` yields
PoseUnavailable with 2 seconds elapsed. -/
theorem get_pose_timeout_semantics_witness :
    get_pose (fun _ => .err .lookup) 2 = .poseUnavailable .lookup 2 := by
  have h := (get_pose_timeout_semantics.1 (fun _ => .err .lookup) 2 (by norm_num)
    (fun t => rfl)).1
  simpa using h

/-- C5 (amended): with `timeout > 0` both transient kinds on the FIRST
attempt enter the retry path, and when every retry attempt fails with a
lookup error, exhaustion raises PoseUnavailable carrying the original
first-attempt cause (of either kind); but inside the retry window only
`tf.LookupException` is caught — an extrapolation error raised by a retry
attempt propagates to the caller as a raw unwrapped exception. -/
theorem get_pose_retry_catches_only_lookup :
    (∀ (service : ℕ → LookupOutcome) (timeout : ℚ) (e : TFError), 0 < timeout →
      service 0 = .err e → (∀ t, 0 < t → service t = .err .lookup) →
      get_pose service timeout = .poseUnavailable e ⌈timeout⌉₊) ∧
    (∀ (service : ℕ → LookupOutcome) (timeout : ℚ) (e : TFError) (k : ℕ),
      0 < k → k ≤ ⌈timeout⌉₊ → service 0 = .err e →
      (∀ t, 0 < t → t < k → service t = .err .lookup) →
      service k = .err .extrapolation →
      get_pose service timeout = .rawError .extrapolation k) := by
  refine ⟨fun service timeout e hpos h0 hfail => ?_,
    fun service timeout e k hk hkc h0 hfail hext => ?_⟩
  · have hne : timeout ≠ 0 := ne_of_gt hpos
    simp only [get_pose, h0]
    rw [if_pos hne]
    exact retry_lookup_exhaust service timeout e hfail (⌈timeout⌉₊ + 1) 0
      (by omega) (by omega)
  · have hpos : 0 < timeout := Nat.ceil_pos.mp (lt_of_lt_of_le hk hkc)
    have hne : timeout ≠ 0 := ne_of_gt hpos
    simp only [get_pose, h0]
    rw [if_pos hne]
    exact retry_lookup_extrap service timeout e k hext hfail (⌈timeout⌉₊ + 1) 0
      hk (by omega) hkc

/-- C5 (counterexample): a first attempt failing with a lookup error
followed by extrapolation errors, with `timeout = 3`, ends neither with
PoseUnavailable nor with the original cause: the retry attempt's
ExtrapolationException escapes `get_pose` unwrapped after 1 second. -/
theorem get_pose_raw_escape_counterexample :
    get_pose (fun t => if t = 0 then .err .lookup else .err .extrapolation) 3
      = .rawError .extrapolation 1 ∧
    get_pose (fun t => if t = 0 then .err .lookup else .err .extrapolation) 3
      ≠ .poseUnavailable .lookup 3 :=
  ⟨rfl, by decide⟩

/-- C5 (witness): an all-extrapolation-failing service with `timeout = 3`:
the first retry attempt (1 second in) escapes raw. -/
theorem get_pose_retry_catches_only_lookup_witness :
    get_pose (fun _ => .err .extrapolation) 3 = .rawError .extrapolation 1 := by
  have h := get_pose_retry_catches_only_lookup.2 (fun _ => .err .extrapolation) 3
    .extrapolation 1 (by norm_num) (by simp) rfl
    (fun t h1 h2 => absurd h1 (by omega)) rfl
  simpa using h

end RobotApi
